import Mathlib

/-!
Formal model of the ESP32 status-monitor backend (server.js).

The server stores immutable status reports (table status_updates) and one
mutable row per device (table devices), infers online/offline liveness from
report recency, logs transitions, synthesizes gap markers for the history
endpoint, and runs a periodic sweep that marks stale devices offline.

Times are modelled as rational numbers of milliseconds (JavaScript Date
arithmetic); storage rows and handler results are plain Lean structures, and
each HTTP handler is a pure function of the state it reads.
-/

namespace RenderBackend

/-- Milliseconds since the epoch, as exact rationals (JavaScript numbers). -/
abbrev Time := ℚ

/-- Row identifiers: real rows carry the SQLite integer primary key, while
gap markers built by the history endpoint carry a JavaScript string id. -/
inductive RowId where
  | intId (n : Nat)
  | strId (s : String)
deriving DecidableEq, Repr

/-- A row of the status_updates table, and also the shape of the objects the
history endpoint returns. Real rows fill every field; synthesized gap
markers carry only id, device_id, status, server_timestamp and the
is_offline_marker flag (absent JavaScript properties are `none`). -/
structure Row where
  id : RowId
  device_id : String
  status : String
  server_timestamp : Time
  uptime_seconds : Option Int := none
  ip_address : Option String := none
  rssi : Option Int := none
  free_heap : Option Int := none
  is_boot : Option Int := none
  timestamp : Option Time := none
  is_offline_marker : Bool := false
deriving DecidableEq, Repr

/-- A row of the devices table. -/
structure DeviceState where
  device_id : String
  last_seen : Time
  total_uptime : Int
  status : String
deriving DecidableEq, Repr

/-- The two tables plus the autoincrement counter for status_updates. -/
structure ServerState where
  status_updates : List Row
  devices : List DeviceState
  next_id : Nat
deriving DecidableEq, Repr

/-! ## Liveness evaluation (GET /api/status lines 104-109, sweep lines 202-207) -/

/-- `(now - lastSeen) / 1000 / 60` : minutes since the device was last seen. -/
def minutesSinceLastSeen (now lastSeen : Time) : ℚ :=
  (now - lastSeen) / 1000 / 60

/-- The read path check `minutesSinceLastSeen < 1` (server.js line 109). -/
def isOnline (now lastSeen : Time) : Bool :=
  decide (minutesSinceLastSeen now lastSeen < 1)

/-- The sweep check `minutesSinceLastSeen >= 1` (server.js line 207). -/
def sweepNeedsOffline (now lastSeen : Time) : Bool :=
  decide (1 ≤ minutesSinceLastSeen now lastSeen)

/-- `Math.round(m * 10) / 10`, the displayed one-decimal rounding. -/
def jsRound1 (q : ℚ) : ℚ :=
  ((round (q * 10) : ℤ) : ℚ) / 10

/-! ## Sweep scheduler (server.js lines 194-221) -/

/-- The synthetic offline row the sweep inserts: status offline, zero
numeric fields, empty ip, and both timestamps at the server clock. -/
def sweepMarkerRow (now : Time) (nid : Nat) (did : String) : Row :=
  { id := RowId.intId nid
    device_id := did
    status := "offline"
    server_timestamp := now
    uptime_seconds := some 0
    ip_address := some ""
    rssi := some 0
    free_heap := some 0
    is_boot := some 0
    timestamp := some now }

/-- One iteration of the sweep `devices.forEach`: if the snapshot device is
stale and stored online, set its row offline and insert the marker row. -/
def sweepDeviceStep (now : Time) (acc : ServerState) (d : DeviceState) : ServerState :=
  if sweepNeedsOffline now d.last_seen && d.status == "online" then
    { status_updates := acc.status_updates ++ [sweepMarkerRow now acc.next_id d.device_id]
      devices := acc.devices.map fun e =>
        if e.device_id == d.device_id then { e with status := "offline" } else e
      next_id := acc.next_id + 1 }
  else acc

/-- One tick of the 60-second background sweep (`setInterval` body). -/
def sweepTick (now : Time) (st : ServerState) : ServerState :=
  st.devices.foldl (sweepDeviceStep now) st

/-! ## Report ingest, POST /api/status (server.js lines 55-91) -/

/-- The JSON request body: every field is optional (absent = `none`). -/
structure StatusBody where
  device_id : Option String := none
  status : Option String := none
  uptime_seconds : Option Int := none
  ip_address : Option String := none
  rssi : Option Int := none
  free_heap : Option Int := none
  is_boot : Option Bool := none
  timestamp : Option Time := none
deriving DecidableEq, Repr

/-- JavaScript `x || d` for a string field: absent or empty falls to `d`. -/
def jsOrStr : Option String → String → String
  | none, d => d
  | some s, d => if s = "" then d else s

/-- JavaScript `x || d` for an integer field: absent or zero falls to `d`. -/
def jsOrInt : Option Int → Int → Int
  | none, d => d
  | some n, d => if n = 0 then d else n

/-- JavaScript `x || d` for a numeric timestamp field. -/
def jsOrTime : Option Time → Time → Time
  | none, d => d
  | some t, d => if t = 0 then d else t

/-- JavaScript truthiness of an optional boolean (`data.is_boot ? 1 : 0`). -/
def jsTruthy : Option Bool → Bool
  | none => false
  | some b => b

/-- The status_updates row the ingest INSERT builds from the body, with the
defaults of server.js lines 66-73 and a server-assigned timestamp and id. -/
def mkReport (now : Time) (nid : Nat) (data : StatusBody) : Row :=
  { id := RowId.intId nid
    device_id := jsOrStr data.device_id "unknown"
    status := jsOrStr data.status "online"
    server_timestamp := now
    uptime_seconds := some (jsOrInt data.uptime_seconds 0)
    ip_address := some (jsOrStr data.ip_address "")
    rssi := some (jsOrInt data.rssi 0)
    free_heap := some (jsOrInt data.free_heap 0)
    is_boot := some (if jsTruthy data.is_boot then 1 else 0)
    timestamp := some (jsOrTime data.timestamp now) }

/-- `SELECT status FROM devices WHERE device_id = ?` (one row by primary key). -/
def findDevice (did : String) (devices : List DeviceState) : Option DeviceState :=
  devices.find? fun d => d.device_id == did

/-- `INSERT OR REPLACE INTO devices (device_id, last_seen, status)`: the whole
row is replaced, so the unlisted total_uptime column takes its default 0. -/
def upsertDevice (now : Time) (did stat : String) (devices : List DeviceState) :
    List DeviceState :=
  { device_id := did, last_seen := now, total_uptime := 0, status := stat } ::
    devices.filter fun d => ¬(d.device_id == did)

/-- What the POST handler produces: the JSON reply, whether the
"came back ONLINE" transition line was logged, and the new state. -/
structure PostStatusResult where
  success : Bool
  message : String
  loggedBackOnline : Bool
  state : ServerState
deriving DecidableEq, Repr

/-- The POST /api/status handler: insert the report, log the back-online
transition when the stored device row was offline, replace the device row. -/
def postStatus (now : Time) (data : StatusBody) (st : ServerState) : PostStatusResult :=
  let did := jsOrStr data.device_id "unknown"
  let stat := jsOrStr data.status "online"
  let logged :=
    match findDevice did st.devices with
    | some d => d.status == "offline"
    | none => false
  { success := true
    message := "Status received"
    loggedBackOnline := logged
    state :=
      { status_updates := st.status_updates ++ [mkReport now st.next_id data]
        devices := upsertDevice now did stat st.devices
        next_id := st.next_id + 1 } }

/-! ## Current status read, GET /api/status (server.js lines 94-136) -/

/-- `SELECT * FROM devices ORDER BY last_seen DESC LIMIT 1`. -/
def latestDevice (devices : List DeviceState) : Option DeviceState :=
  devices.foldl
    (fun acc d =>
      match acc with
      | none => some d
      | some m => if m.last_seen < d.last_seen then some d else some m)
    none

/-- `SELECT * FROM status_updates WHERE device_id = ? ORDER BY server_timestamp
DESC LIMIT 1`. -/
def latestUpdateFor (did : String) (rows : List Row) : Option Row :=
  rows.foldl
    (fun acc r =>
      if r.device_id == did then
        match acc with
        | none => some r
        | some m => if m.server_timestamp < r.server_timestamp then some r else some m
      else acc)
    none

/-- The JSON body of a successful GET /api/status reply. -/
structure StatusView where
  device_id : String
  status : String
  last_seen : Time
  minutes_since_last_seen : ℚ
  latest_update : Option Row
deriving DecidableEq, Repr

/-- GET /api/status replies either the no-data body or a status view. -/
inductive StatusReply where
  | noDevice
  | view (v : StatusView)
deriving DecidableEq, Repr

/-- What the GET handler produces: the reply, the devices table after the
possible offline UPDATE, and whether the went-OFFLINE line was logged. -/
structure GetStatusResult where
  reply : StatusReply
  devices : List DeviceState
  loggedWentOffline : Bool
deriving DecidableEq, Repr

/-- The GET /api/status handler: evaluate recency of the most recently seen
device, log and persist the offline transition when it just went offline. -/
def getStatus (now : Time) (st : ServerState) : GetStatusResult :=
  match latestDevice st.devices with
  | none => ⟨StatusReply.noDevice, st.devices, false⟩
  | some device =>
    let online := isOnline now device.last_seen
    let logged := !online && device.status == "online"
    let devs :=
      if logged then
        st.devices.map fun e =>
          if e.device_id == device.device_id then { e with status := "offline" } else e
      else st.devices
    ⟨StatusReply.view
      { device_id := device.device_id
        status := if online then "online" else "offline"
        last_seen := device.last_seen
        minutes_since_last_seen := jsRound1 (minutesSinceLastSeen now device.last_seen)
        latest_update := latestUpdateFor device.device_id st.status_updates }
      , devs, logged⟩

/-! ## History with gap synthesis, GET /api/history (server.js lines 139-171) -/

/-- The gap between two adjacent history rows, in minutes. -/
def gapMinutes (cur nxt : Row) : ℚ :=
  (cur.server_timestamp - nxt.server_timestamp) / 1000 / 60

/-- The synthesized offline marker of server.js lines 159-165: string id
`offline_` with the loop index, device_id copied from the newer row, and a
timestamp at `current - gapMinutes * 60 * 1000 / 2`. -/
def gapMarker (i : Nat) (cur nxt : Row) : Row :=
  { id := RowId.strId ("offline_" ++ toString i)
    device_id := cur.device_id
    status := "offline"
    server_timestamp := cur.server_timestamp - gapMinutes cur nxt * 60 * 1000 / 2
    is_offline_marker := true }

/-- The marker-insertion loop over the descending rows (index `i` follows the
JavaScript loop variable). -/
def addMarkers : Nat → List Row → List Row
  | _, [] => []
  | _, [r] => [r]
  | i, cur :: nxt :: rest =>
    if gapMinutes cur nxt > 1 then
      cur :: gapMarker i cur nxt :: addMarkers (i + 1) (nxt :: rest)
    else
      cur :: addMarkers (i + 1) (nxt :: rest)

/-- `processedRows` of the history handler, reversed to chronological order. -/
def processedRows (rows : List Row) : List Row :=
  (addMarkers 0 rows).reverse

/-- Descending insertion by server_timestamp. -/
def insertDesc (r : Row) : List Row → List Row
  | [] => [r]
  | x :: xs =>
    if x.server_timestamp ≤ r.server_timestamp then r :: x :: xs else x :: insertDesc r xs

/-- `ORDER BY server_timestamp DESC` over the stored rows. -/
def sortDesc : List Row → List Row
  | [] => []
  | x :: xs => insertDesc x (sortDesc xs)

/-- `parseInt(req.query.limit) || 100`: absent, unparsable or zero gives 100. -/
def parseLimit : Option Nat → Nat
  | none => 100
  | some n => if n = 0 then 100 else n

/-- The GET /api/history handler body: the newest `limit` rows, run through
the gap synthesizer and reversed. -/
def getHistory (limit : Nat) (st : ServerState) : List Row :=
  processedRows ((sortDesc st.status_updates).take limit)

/-- GET /api/history with the raw query parameter. -/
def getHistoryReq (q : Option Nat) (st : ServerState) : List Row :=
  getHistory (parseLimit q) st

/-! ## Request handlers with their storage outcomes (error handling, §7)

Each storage call is represented by its outcome, `Except` an error message,
so the handlers below are the request paths of server.js with the error
branches in view. -/

/-- An HTTP reply: a 200 JSON body, or the 500 body built from a storage
error message (`res.status(500).json(...)`). -/
inductive HttpReply (α : Type) where
  | ok (a : α)
  | error500 (msg : String)
deriving DecidableEq, Repr

/-- The JSON reply of POST /api/status. -/
structure PostReply where
  success : Bool
  message : String
deriving DecidableEq, Repr

/-- POST /api/status with its three storage calls: the handler checks no
error and replies success whatever the INSERT, SELECT and REPLACE return. -/
def postStatusRoute (_insertQ : Except String Unit)
    (_deviceQ : Except String (Option DeviceState))
    (_upsertQ : Except String Unit) : HttpReply PostReply :=
  HttpReply.ok { success := true, message := "Status received" }

/-- GET /api/status with its two storage reads: a failed read replies 500
with the underlying message (server.js lines 96-98 and 123-125). -/
def getStatusRoute (deviceQ : Except String (Option DeviceState))
    (latestQ : Except String (Option Row)) (now : Time) : HttpReply StatusReply :=
  match deviceQ with
  | Except.error m => HttpReply.error500 m
  | Except.ok none => HttpReply.ok StatusReply.noDevice
  | Except.ok (some device) =>
    match latestQ with
    | Except.error m => HttpReply.error500 m
    | Except.ok latest =>
      HttpReply.ok (StatusReply.view
        { device_id := device.device_id
          status := if isOnline now device.last_seen then "online" else "offline"
          last_seen := device.last_seen
          minutes_since_last_seen := jsRound1 (minutesSinceLastSeen now device.last_seen)
          latest_update := latest })

/-- GET /api/history with its storage read (server.js lines 145-147). -/
def getHistoryRoute (rowsQ : Except String (List Row)) : HttpReply (List Row) :=
  match rowsQ with
  | Except.error m => HttpReply.error500 m
  | Except.ok rows => HttpReply.ok (processedRows rows)

/-- The aggregate row GET /api/stats returns. -/
structure StatsReply where
  total_updates : Nat
  first_seen : Option Time
  last_seen : Option Time
  boot_count : Nat
deriving DecidableEq, Repr

/-- GET /api/stats with its storage read (server.js lines 181-183). -/
def getStatsRoute (statsQ : Except String StatsReply) : HttpReply StatsReply :=
  match statsQ with
  | Except.error m => HttpReply.error500 m
  | Except.ok s => HttpReply.ok s

/-- One sweep tick with the outcome of its `SELECT * FROM devices`: an error
is logged and the tick skipped, leaving the state unchanged. -/
def sweepTickRoute (devicesQ : Except String Unit) (now : Time) (st : ServerState) :
    ServerState :=
  match devicesQ with
  | Except.error _ => st
  | Except.ok _ => sweepTick now st

/-! ## Liveness evaluation: claim C2 -/

/-- C2: for every now and last_seen the read path evaluates "online" exactly
when the elapsed minutes are strictly below the 1-minute threshold, at
exactly the threshold the device is not online, and the sweep staleness
check is the exact complement of the read path check. -/
theorem liveness_evaluation (now lastSeen : Time) :
    (isOnline now lastSeen = true ↔ minutesSinceLastSeen now lastSeen < 1) ∧
    (isOnline now lastSeen = false ↔ 1 ≤ minutesSinceLastSeen now lastSeen) ∧
    isOnline (lastSeen + 60000) lastSeen = false ∧
    sweepNeedsOffline now lastSeen = !isOnline now lastSeen := by
  have hb : lastSeen + 60000 - lastSeen = (60000 : ℚ) := by ring
  refine ⟨by simp [isOnline], by simp [isOnline, not_lt], ?_, ?_⟩
  · simp only [isOnline, minutesSinceLastSeen, hb]
    norm_num
  · simp [isOnline, sweepNeedsOffline, ← decide_not, decide_eq_decide, not_lt]

/-! ## Sweep scheduler: claim C1 -/

lemma sweepDeviceStep_of_not_online (now : Time) (acc : ServerState) (d : DeviceState)
    (h : d.status ≠ "online") : sweepDeviceStep now acc d = acc := by
  have hb : (d.status == "online") = false := by simp [h]
  simp [sweepDeviceStep, hb]

lemma foldl_sweep_offline_noop (now : Time) :
    ∀ (l : List DeviceState) (acc : ServerState),
      (∀ e ∈ l, e.status = "offline") →
      List.foldl (sweepDeviceStep now) acc l = acc := by
  intro l
  induction l with
  | nil => intro acc _; rfl
  | cons d t ih =>
    intro acc h
    have hd : d.status ≠ "online" := by
      rw [h d (by simp)]
      decide
    rw [List.foldl_cons, sweepDeviceStep_of_not_online now acc d hd]
    exact ih acc fun e he => h e (List.mem_cons_of_mem _ he)

lemma sweepTick_single_online_stale (now : Time) (su : List Row) (d : DeviceState) (n : Nat)
    (hon : d.status = "online") (hst : 1 ≤ minutesSinceLastSeen now d.last_seen) :
    sweepTick now ⟨su, [d], n⟩ =
      ⟨su ++ [sweepMarkerRow now n d.device_id], [{ d with status := "offline" }], n + 1⟩ := by
  have hc : sweepNeedsOffline now d.last_seen = true := by
    simp [sweepNeedsOffline, hst]
  simp [sweepTick, sweepDeviceStep, hc, hon]

lemma foldl_sweep_filter_immune (now : Time) (dId : String) :
    ∀ (l : List DeviceState) (acc : ServerState),
      (∀ e ∈ l, e.status = "online" → e.device_id ≠ dId) →
      (List.foldl (sweepDeviceStep now) acc l).status_updates.filter
          (fun r => r.device_id == dId) =
        acc.status_updates.filter (fun r => r.device_id == dId) := by
  intro l
  induction l with
  | nil => intro acc _; rfl
  | cons d t ih =>
    intro acc h
    rw [List.foldl_cons, ih _ fun e he => h e (List.mem_cons_of_mem _ he)]
    by_cases hfire : sweepNeedsOffline now d.last_seen && d.status == "online"
    · have hon : d.status = "online" := by
        have := (Bool.and_eq_true _ _).mp hfire
        simpa using this.2
      have hne : d.device_id ≠ dId := h d (by simp) hon
      simp [sweepDeviceStep, hfire, List.filter_append, sweepMarkerRow, hne]
    · simp [sweepDeviceStep, hfire]

lemma foldl_sweep_mem_immune (now : Time) (d : DeviceState) :
    ∀ (l : List DeviceState) (acc : ServerState),
      (∀ e ∈ l, e.status = "online" → e.device_id ≠ d.device_id) →
      d ∈ acc.devices →
      d ∈ (List.foldl (sweepDeviceStep now) acc l).devices := by
  intro l
  induction l with
  | nil => intro acc _ hmem; exact hmem
  | cons e t ih =>
    intro acc h hmem
    rw [List.foldl_cons]
    refine ih _ (fun x hx => h x (List.mem_cons_of_mem _ hx)) ?_
    by_cases hfire : sweepNeedsOffline now e.last_seen && e.status == "online"
    · have hon : e.status = "online" := by
        have := (Bool.and_eq_true _ _).mp hfire
        simpa using this.2
      have hne : d.device_id ≠ e.device_id :=
        fun hEq => (h e (by simp) hon) hEq.symm
      have hf :
          (fun x : DeviceState =>
              if x.device_id == e.device_id then { x with status := "offline" } else x) d
            = d := by
        simp [hne]
      have hmm := List.mem_map_of_mem
        (fun x : DeviceState =>
          if x.device_id == e.device_id then { x with status := "offline" } else x) hmem
      rw [hf] at hmm
      simpa [sweepDeviceStep, hfire] using hmm
    · simpa [sweepDeviceStep, hfire] using hmem

/-- C1: a sweep tick over devices that are all already stored offline changes
nothing at all; over a mixed device table a stored-offline device gets no new
status_updates row and keeps its device row; and a stored-online stale
device is marked offline with exactly one synthetic offline Report appended,
after which repeating the tick changes nothing. -/
theorem sweep_exactly_once_offline :
    (∀ (now : Time) (st : ServerState),
        (∀ e ∈ st.devices, e.status = "offline") → sweepTick now st = st) ∧
    (∀ (now : Time) (st : ServerState) (d : DeviceState),
        d ∈ st.devices → d.status = "offline" →
        (∀ e ∈ st.devices, e.device_id = d.device_id → e = d) →
        (sweepTick now st).status_updates.filter (fun r => r.device_id == d.device_id) =
            st.status_updates.filter (fun r => r.device_id == d.device_id) ∧
          d ∈ (sweepTick now st).devices) ∧
    (∀ (now now2 : Time) (su : List Row) (d : DeviceState) (n : Nat),
        d.status = "online" → 1 ≤ minutesSinceLastSeen now d.last_seen →
        sweepTick now ⟨su, [d], n⟩ =
            ⟨su ++ [sweepMarkerRow now n d.device_id],
              [{ d with status := "offline" }], n + 1⟩ ∧
          sweepTick now2 (sweepTick now ⟨su, [d], n⟩) = sweepTick now ⟨su, [d], n⟩) := by
  refine ⟨?_, ?_, ?_⟩
  · intro now st h
    exact foldl_sweep_offline_noop now st.devices st h
  · intro now st d hmem hoff hkey
    have hids : ∀ e ∈ st.devices, e.status = "online" → e.device_id ≠ d.device_id := by
      intro e he hon heq
      have hEd := hkey e he heq
      rw [hEd] at hon
      rw [hoff] at hon
      exact absurd hon (by decide)
    exact ⟨foldl_sweep_filter_immune now d.device_id st.devices st hids,
      foldl_sweep_mem_immune now d st.devices st hids hmem⟩
  · intro now now2 su d n hon hst
    have h1 := sweepTick_single_online_stale now su d n hon hst
    refine ⟨h1, ?_⟩
    rw [h1]
    exact foldl_sweep_offline_noop now2 _ _ (by intro e he; simp at he; rw [he])

/-- Concrete check of the C1 sweep scenario: a device last seen 90 seconds
ago is swept offline with one marker appended, and a second tick is a
no-op. -/
theorem sweep_exactly_once_offline_witness :
    sweepTick 90000 ⟨[], [⟨"esp32", 0, 0, "online"⟩], 5⟩ =
        ⟨[sweepMarkerRow 90000 5 "esp32"], [⟨"esp32", 0, 0, "offline"⟩], 6⟩ ∧
      sweepTick 150000 (sweepTick 90000 ⟨[], [⟨"esp32", 0, 0, "online"⟩], 5⟩) =
        sweepTick 90000 ⟨[], [⟨"esp32", 0, 0, "online"⟩], 5⟩ := by
  have h := sweep_exactly_once_offline.2.2 90000 150000 [] ⟨"esp32", 0, 0, "online"⟩ 5 rfl
    (by norm_num [minutesSinceLastSeen])
  exact ⟨h.1, h.2⟩

/-! ## Gap synthesizer: claims C3, C5 and C10 -/

/-- The marker Report as the specification words it (§4.3): status offline,
is_offline_marker set, a synthetic string id, device_id copied from the
newer row, and server_timestamp at the temporal midpoint of the gap. -/
def specGapMarker (i : Nat) (cur nxt : Row) : Row :=
  { id := RowId.strId ("offline_" ++ toString i)
    device_id := cur.device_id
    status := "offline"
    server_timestamp :=
      cur.server_timestamp - (cur.server_timestamp - nxt.server_timestamp) / 2
    is_offline_marker := true }

/-- The Gap Synthesizer walk as the specification words it: over adjacent
pairs of the descending sequence, synthesize one marker exactly when the gap
in minutes strictly exceeds the 1-minute threshold. -/
def specGapSynthFrom (i : Nat) : List Row → List Row
  | [] => []
  | [r] => [r]
  | cur :: nxt :: rest =>
    cur :: ((if gapMinutes cur nxt > 1 then [specGapMarker i cur nxt] else []) ++
      specGapSynthFrom (i + 1) (nxt :: rest))

lemma gapMarker_eq_spec (i : Nat) (cur nxt : Row) :
    gapMarker i cur nxt = specGapMarker i cur nxt := by
  simp only [gapMarker, specGapMarker, gapMinutes, Row.mk.injEq, and_true, true_and]
  ring

lemma addMarkers_eq_spec : ∀ (rows : List Row) (i : Nat),
    addMarkers i rows = specGapSynthFrom i rows := by
  intro rows
  induction rows with
  | nil => intro i; rfl
  | cons cur t ih =>
    intro i
    cases t with
    | nil => rfl
    | cons nxt rest =>
      by_cases hgap : gapMinutes cur nxt > 1
      · simp only [addMarkers, specGapSynthFrom, if_pos hgap, gapMarker_eq_spec,
          List.cons_append, List.nil_append, List.singleton_append]
        rw [ih (i + 1)]
      · simp only [addMarkers, specGapSynthFrom, if_neg hgap, List.nil_append]
        rw [ih (i + 1)]

/-- C3: the history post-processing is exactly the specified Gap Synthesizer
followed by the reversal to chronological order, and each synthesized marker
has status offline, is_offline_marker set, the device of the newer row, the
midpoint timestamp, and an id no real row can carry. -/
theorem gap_synthesizer_algorithm :
    (∀ rows : List Row, processedRows rows = (specGapSynthFrom 0 rows).reverse) ∧
    (∀ (i : Nat) (cur nxt : Row),
        (gapMarker i cur nxt).status = "offline" ∧
        (gapMarker i cur nxt).is_offline_marker = true ∧
        (gapMarker i cur nxt).device_id = cur.device_id ∧
        (gapMarker i cur nxt).server_timestamp =
          cur.server_timestamp - (cur.server_timestamp - nxt.server_timestamp) / 2 ∧
        ∀ n : Nat, (gapMarker i cur nxt).id ≠ RowId.intId n) := by
  refine ⟨?_, ?_⟩
  · intro rows
    rw [processedRows, addMarkers_eq_spec]
  · intro i cur nxt
    refine ⟨rfl, rfl, rfl, ?_, ?_⟩
    · have h := congrArg Row.server_timestamp (gapMarker_eq_spec i cur nxt)
      simpa [gapMarker, specGapMarker] using h
    · intro n
      simp [gapMarker]

/-- Relabelling of the device column of a row, all other fields kept. -/
def reDevice (f : String → String) (r : Row) : Row :=
  { r with device_id := f r.device_id }

lemma gapMinutes_reDevice (f : String → String) (cur nxt : Row) :
    gapMinutes (reDevice f cur) (reDevice f nxt) = gapMinutes cur nxt := rfl

lemma gapMarker_reDevice (f : String → String) (i : Nat) (cur nxt : Row) :
    gapMarker i (reDevice f cur) (reDevice f nxt) = reDevice f (gapMarker i cur nxt) := rfl

lemma addMarkers_map_reDevice (f : String → String) :
    ∀ (rows : List Row) (i : Nat),
      addMarkers i (rows.map (reDevice f)) = (addMarkers i rows).map (reDevice f) := by
  intro rows
  induction rows with
  | nil => intro i; rfl
  | cons cur t ih =>
    intro i
    cases t with
    | nil => rfl
    | cons nxt rest =>
      have htail : addMarkers (i + 1) (reDevice f nxt :: List.map (reDevice f) rest) =
          List.map (reDevice f) (addMarkers (i + 1) (nxt :: rest)) := ih (i + 1)
      by_cases hgap : gapMinutes cur nxt > 1
      · simp only [List.map_cons, addMarkers, gapMinutes_reDevice, if_pos hgap,
          gapMarker_reDevice, htail]
      · simp only [List.map_cons, addMarkers, gapMinutes_reDevice, if_neg hgap, htail]

/-- A report of device alpha, 200 seconds after the beta report below. -/
def exRowNewer : Row :=
  { id := RowId.intId 2, device_id := "alpha", status := "online",
    server_timestamp := 200000, uptime_seconds := some 5,
    ip_address := some "10.0.0.2", rssi := some (-40), free_heap := some 1000,
    is_boot := some 0, timestamp := some 200000 }

/-- A report of device beta. -/
def exRowOlder : Row :=
  { id := RowId.intId 1, device_id := "beta", status := "online",
    server_timestamp := 0, uptime_seconds := some 9,
    ip_address := some "10.0.0.3", rssi := some (-50), free_heap := some 900,
    is_boot := some 1, timestamp := some 0 }

/-- C10: gap synthesis never looks at the device column: relabelling device
ids commutes with the whole history post-processing, the marker copies the
device of the newer row, and between adjacent reports of two different
devices 200 seconds apart one marker is synthesized carrying the device id
of the more recent report. -/
theorem gap_synthesis_device_blind :
    (∀ (f : String → String) (rows : List Row),
        processedRows (rows.map (reDevice f)) = (processedRows rows).map (reDevice f)) ∧
    (∀ (i : Nat) (cur nxt : Row), (gapMarker i cur nxt).device_id = cur.device_id) ∧
    (processedRows [exRowNewer, exRowOlder]).filter (fun r => r.is_offline_marker) =
        [gapMarker 0 exRowNewer exRowOlder] ∧
    (gapMarker 0 exRowNewer exRowOlder).device_id = "alpha" := by
  refine ⟨?_, fun i cur nxt => rfl, ?_, rfl⟩
  · intro f rows
    rw [processedRows, processedRows, addMarkers_map_reDevice, List.map_reverse]
  · norm_num [processedRows, addMarkers, gapMinutes, exRowNewer, exRowOlder, gapMarker]

lemma addMarkers_length_le : ∀ (rows : List Row) (i : Nat),
    (addMarkers i rows).length ≤ 2 * rows.length := by
  intro rows
  induction rows with
  | nil => intro i; simp [addMarkers]
  | cons cur t ih =>
    intro i
    cases t with
    | nil => simp [addMarkers]
    | cons nxt rest =>
      have h := ih (i + 1)
      by_cases hgap : gapMinutes cur nxt > 1
      · simp only [addMarkers, if_pos hgap, List.length_cons] at h ⊢
        omega
      · simp only [addMarkers, if_neg hgap, List.length_cons] at h ⊢
        omega

lemma addMarkers_filter_real : ∀ (rows : List Row) (i : Nat),
    (addMarkers i rows).filter (fun r => !r.is_offline_marker) =
      rows.filter (fun r => !r.is_offline_marker) := by
  intro rows
  induction rows with
  | nil => intro i; rfl
  | cons cur t ih =>
    intro i
    cases t with
    | nil => rfl
    | cons nxt rest =>
      by_cases hgap : gapMinutes cur nxt > 1
      · simp only [addMarkers, if_pos hgap, List.filter_cons]
        rw [ih (i + 1)]
        simp [gapMarker, List.filter_cons]
      · simp only [addMarkers, if_neg hgap, List.filter_cons]
        rw [ih (i + 1)]
        simp [List.filter_cons]

lemma filter_reverse_eq (p : Row → Bool) :
    ∀ l : List Row, l.reverse.filter p = (l.filter p).reverse := by
  intro l
  induction l with
  | nil => rfl
  | cons x xs ih =>
    by_cases hx : p x
    · simp [List.filter_append, List.filter_cons, hx, ih]
    · simp [List.filter_append, List.filter_cons, hx, ih]

/-- C5 amended: the history reply holds at most N real stored Reports (the
non-marker elements), and counting the synthesized markers as well at most
2N elements, N being the requested limit with default 100. -/
theorem history_size_bound (q : Option Nat) (st : ServerState) :
    ((getHistoryReq q st).filter (fun r => !r.is_offline_marker)).length ≤ parseLimit q ∧
    (getHistoryReq q st).length ≤ 2 * parseLimit q ∧
    parseLimit none = 100 := by
  refine ⟨?_, ?_, rfl⟩
  · rw [getHistoryReq, getHistory, processedRows, filter_reverse_eq,
      List.length_reverse, addMarkers_filter_real]
    exact le_trans (List.length_filter_le _ _) (List.length_take_le _ _)
  · rw [getHistoryReq, getHistory, processedRows, List.length_reverse]
    exact le_trans (addMarkers_length_le _ 0)
      (Nat.mul_le_mul_left 2 (List.length_take_le _ _))

/-- Two stored reports of one device, 200 seconds apart. -/
def exHistState : ServerState :=
  { status_updates :=
      [{ id := RowId.intId 1, device_id := "esp32", status := "online",
         server_timestamp := 0, uptime_seconds := some 1,
         ip_address := some "10.0.0.7", rssi := some (-60), free_heap := some 800,
         is_boot := some 1, timestamp := some 0 },
       { id := RowId.intId 2, device_id := "esp32", status := "online",
         server_timestamp := 200000, uptime_seconds := some 201,
         ip_address := some "10.0.0.7", rssi := some (-61), free_heap := some 790,
         is_boot := some 0, timestamp := some 200000 }]
    devices := [⟨"esp32", 200000, 0, "online"⟩]
    next_id := 3 }

/-- C5 counterexample: with limit 2 over two stored reports 200 seconds
apart the history reply holds three Report-shaped elements, more than the
requested limit. -/
theorem history_size_counterexample :
    (getHistory 2 exHistState).length = 3 ∧ ¬(getHistory 2 exHistState).length ≤ 2 := by
  norm_num [getHistory, exHistState, sortDesc, insertDesc, processedRows, addMarkers,
    gapMinutes]

/-! ## Transition logging: claim C4 -/

/-- C4 counterexample: a POST whose body carries status offline to a device
stored offline logs the back-online transition although evaluated and stored
status agree, and a GET over a freshly seen device stored offline evaluates
online, a difference that logs nothing. -/
theorem transition_logging_counterexample :
    ((postStatus 1000 { device_id := some "dev", status := some "offline" }
          ⟨[], [⟨"dev", 0, 0, "offline"⟩], 0⟩).loggedBackOnline = true ∧
        jsOrStr (some "offline") "online" = "offline") ∧
      ((getStatus 500 ⟨[], [⟨"dev", 400, 0, "offline"⟩], 0⟩).loggedWentOffline = false ∧
        isOnline 500 400 = true) := by
  refine ⟨⟨?_, by decide⟩, ?_, ?_⟩
  · simp [postStatus, findDevice, jsOrStr]
  · simp [getStatus, latestDevice]
  · norm_num [isOnline, minutesSinceLastSeen]

/-- C4 amended: on the read path a transition line is logged exactly when
the evaluated status is offline while the stored status is online; on the
ingest path a transition line is logged exactly when a stored row for the
device of the report exists with status offline, regardless of the incoming
status. -/
theorem transition_logging_amended :
    (∀ (now : Time) (st : ServerState) (dev : DeviceState),
        latestDevice st.devices = some dev →
        ((getStatus now st).loggedWentOffline = true ↔
          isOnline now dev.last_seen = false ∧ dev.status = "online")) ∧
    (∀ (now : Time) (data : StatusBody) (st : ServerState),
        (postStatus now data st).loggedBackOnline = true ↔
          ∃ d, findDevice (jsOrStr data.device_id "unknown") st.devices = some d ∧
            d.status = "offline") := by
  constructor
  · intro now st dev h
    simp [getStatus, h]
  · intro now data st
    cases h : findDevice (jsOrStr data.device_id "unknown") st.devices with
    | none => simp [postStatus, h]
    | some d => simp [postStatus, h]

/-- Concrete check of the amended C4 read path: a device stored online and
last seen 90 seconds ago gets the went-offline line logged. -/
theorem transition_logging_amended_witness :
    (getStatus 90000 ⟨[], [⟨"dev", 0, 0, "online"⟩], 0⟩).loggedWentOffline = true := by
  refine (transition_logging_amended.1 90000 ⟨[], [⟨"dev", 0, 0, "online"⟩], 0⟩
    ⟨"dev", 0, 0, "online"⟩ rfl).mpr ⟨?_, rfl⟩
  norm_num [isOnline, minutesSinceLastSeen]

/-! ## Permissive ingest: claim C6 -/

/-- C6: no POST body is rejected: the reply is success with message
"Status received", exactly one Report row is appended, the empty body
produces the all-defaults row, and each absent field takes its documented
default. -/
theorem permissive_ingest :
    (∀ (now : Time) (data : StatusBody) (st : ServerState),
        (postStatus now data st).success = true ∧
        (postStatus now data st).message = "Status received" ∧
        (postStatus now data st).state.status_updates =
          st.status_updates ++ [mkReport now st.next_id data]) ∧
    (∀ (now : Time) (nid : Nat),
        mkReport now nid {} =
          { id := RowId.intId nid, device_id := "unknown", status := "online",
            server_timestamp := now, uptime_seconds := some 0, ip_address := some "",
            rssi := some 0, free_heap := some 0, is_boot := some 0,
            timestamp := some now }) ∧
    (∀ (now : Time) (nid : Nat) (data : StatusBody),
        (data.device_id = none → (mkReport now nid data).device_id = "unknown") ∧
        (data.status = none → (mkReport now nid data).status = "online") ∧
        (data.uptime_seconds = none → (mkReport now nid data).uptime_seconds = some 0) ∧
        (data.ip_address = none → (mkReport now nid data).ip_address = some "") ∧
        (data.rssi = none → (mkReport now nid data).rssi = some 0) ∧
        (data.free_heap = none → (mkReport now nid data).free_heap = some 0) ∧
        (data.is_boot = none → (mkReport now nid data).is_boot = some 0) ∧
        (data.timestamp = none → (mkReport now nid data).timestamp = some now)) := by
  refine ⟨fun now data st => ⟨rfl, rfl, rfl⟩, fun now nid => rfl, fun now nid data => ?_⟩
  refine ⟨fun h => ?_, fun h => ?_, fun h => ?_, fun h => ?_, fun h => ?_, fun h => ?_,
    fun h => ?_, fun h => ?_⟩
  · simp [mkReport, jsOrStr, h]
  · simp [mkReport, jsOrStr, h]
  · simp [mkReport, jsOrInt, h]
  · simp [mkReport, jsOrStr, h]
  · simp [mkReport, jsOrInt, h]
  · simp [mkReport, jsOrInt, h]
  · simp [mkReport, jsTruthy, h]
  · simp [mkReport, jsOrTime, h]

/-! ## Device row rewrite on ingest: claims C8 and C9 -/

lemma findDevice_upsert (now : Time) (did stat : String) (devs : List DeviceState) :
    findDevice did (upsertDevice now did stat devs) = some ⟨did, now, 0, stat⟩ := by
  simp [findDevice, upsertDevice]

/-- C8: the device row visible after any POST has total_uptime 0: the
INSERT OR REPLACE lists only device_id, last_seen and status, so the whole
row is rewritten and total_uptime falls back to its column default, never
accumulating. -/
theorem total_uptime_always_zero (now : Time) (data : StatusBody) (st : ServerState) :
    ∃ d, findDevice (jsOrStr data.device_id "unknown")
        (postStatus now data st).state.devices = some d ∧ d.total_uptime = 0 :=
  ⟨⟨jsOrStr data.device_id "unknown", now, 0, jsOrStr data.status "online"⟩,
    findDevice_upsert now _ _ st.devices, rfl⟩

/-- C9: the device row written by POST takes the server clock: the devices
table does not depend on the client timestamp field, last_seen equals the
server time of the POST, and successive posts at non-decreasing server
times leave non-decreasing last_seen values. -/
theorem last_seen_ignores_client_time :
    (∀ (now : Time) (data : StatusBody) (st : ServerState) (t : Option Time),
        (postStatus now { data with timestamp := t } st).state.devices =
          (postStatus now data st).state.devices) ∧
    (∀ (now : Time) (data : StatusBody) (st : ServerState),
        ∃ d, findDevice (jsOrStr data.device_id "unknown")
            (postStatus now data st).state.devices = some d ∧ d.last_seen = now) ∧
    (∀ (now1 now2 : Time) (d1 d2 : StatusBody) (st : ServerState) (e1 e2 : DeviceState),
        now1 ≤ now2 →
        findDevice (jsOrStr d1.device_id "unknown")
            (postStatus now1 d1 st).state.devices = some e1 →
        findDevice (jsOrStr d2.device_id "unknown")
            (postStatus now2 d2 (postStatus now1 d1 st).state).state.devices = some e2 →
        e1.last_seen ≤ e2.last_seen) := by
  refine ⟨fun now data st t => rfl, ?_, ?_⟩
  · intro now data st
    exact ⟨⟨jsOrStr data.device_id "unknown", now, 0, jsOrStr data.status "online"⟩,
      findDevice_upsert now _ _ st.devices, rfl⟩
  · intro now1 now2 d1 d2 st e1 e2 h12 h1 h2
    rw [show (postStatus now1 d1 st).state.devices =
        upsertDevice now1 (jsOrStr d1.device_id "unknown") (jsOrStr d1.status "online")
          st.devices from rfl, findDevice_upsert] at h1
    rw [show (postStatus now2 d2 (postStatus now1 d1 st).state).state.devices =
        upsertDevice now2 (jsOrStr d2.device_id "unknown") (jsOrStr d2.status "online")
          (postStatus now1 d1 st).state.devices from rfl, findDevice_upsert] at h2
    have he1 : e1.last_seen = now1 := by
      cases h1
      rfl
    have he2 : e2.last_seen = now2 := by
      cases h2
      rfl
    rw [he1, he2]
    exact h12

/-- Concrete check of the C9 monotonicity part at server times 0 and 1. -/
theorem last_seen_ignores_client_time_witness :
    (⟨"unknown", 0, 0, "online"⟩ : DeviceState).last_seen ≤
      (⟨"unknown", 1, 0, "online"⟩ : DeviceState).last_seen := by
  refine last_seen_ignores_client_time.2.2 0 1 {} {} ⟨[], [], 0⟩ _ _ (by norm_num) rfl rfl

/-! ## Storage errors on the request and sweep paths: claim C7 -/

/-- C7 counterexample: a storage failure inside POST /api/status is not
surfaced: the handler still replies success, not a 500 with the message. -/
theorem storage_error_counterexample :
    postStatusRoute (Except.error "SQLITE_IOERR") (Except.error "SQLITE_IOERR")
        (Except.error "SQLITE_IOERR") =
      HttpReply.ok { success := true, message := "Status received" } ∧
    postStatusRoute (Except.error "SQLITE_IOERR") (Except.error "SQLITE_IOERR")
        (Except.error "SQLITE_IOERR") ≠
      HttpReply.error500 "SQLITE_IOERR" := by
  exact ⟨rfl, by simp [postStatusRoute]⟩

/-- C7 amended: the three GET handlers surface a storage read failure as a
500 reply with the underlying message, the sweep tick skips its work and
leaves state unchanged, and POST /api/status replies success whatever its
storage calls return. -/
theorem storage_error_propagation :
    (∀ (m : String) (latestQ : Except String (Option Row)) (now : Time),
        getStatusRoute (Except.error m) latestQ now = HttpReply.error500 m) ∧
    (∀ (m : String) (dev : DeviceState) (now : Time),
        getStatusRoute (Except.ok (some dev)) (Except.error m) now = HttpReply.error500 m) ∧
    (∀ m : String, getHistoryRoute (Except.error m) = HttpReply.error500 m) ∧
    (∀ m : String, getStatsRoute (Except.error m) = HttpReply.error500 m) ∧
    (∀ (insertQ : Except String Unit) (deviceQ : Except String (Option DeviceState))
        (upsertQ : Except String Unit),
        postStatusRoute insertQ deviceQ upsertQ =
          HttpReply.ok { success := true, message := "Status received" }) ∧
    (∀ (m : String) (now : Time) (st : ServerState),
        sweepTickRoute (Except.error m) now st = st) :=
  ⟨fun _ _ _ => rfl, fun _ _ _ => rfl, fun _ => rfl, fun _ => rfl,
    fun _ _ _ => rfl, fun _ _ _ => rfl⟩

end RenderBackend
